import Mathlib

/-!
Verification of the carQuery ingestion-and-aggregation core.

This file gives a shallow embedding, in Lean 4, of the parts of the
`carqueries` Python package that the specification claims talk about:

* `carqueries/auto.py` : the make/model catalog (`BaseAuto`, `AutoMake`,
  `AutoModel`, `AutoSet`) and the listing-record parser (`AutoRecord`);
* `carqueries/session.py` : the paginated scrape pipeline
  (`Session.get_page_response`, `Session.get_page_soup`,
  `AutoQuery._iter_records`, `AutoQuery._get_num_pages`,
  `AutoQuery.populate`);
* `carqueries/views.py` : the aggregation tree (`TreeRow.num_records`,
  `TreeRow.get_stats`).

Modelling conventions:

* Python strings are Lean `String`; `str.lower`, `str.strip`, `str.split`
  and friends are reimplemented below with Python semantics (ASCII case
  folding, whitespace trimming, separator splitting that keeps empty
  pieces).
* Python dictionaries holding heterogeneous values (the `kwargs` /
  `fields` bags of `AutoRecord`) are association lists over a small
  dynamic value type `PyVal`; `dict.update` is modelled key by key.
* The source runs under Python 2: `/` on integers is floor division
  (`Int.fdiv`), `round` rounds halfway cases away from zero, and `cmp`
  orders `None` below every string.  Floating point expressions whose
  operands are integers are modelled exactly over `Rat`.
* Fallible operations (a raised exception) are `Except Unit`; an
  `urllib2.HTTPError` caught inside `get_page_response` is the `none`
  branch of an `Option`, matching the `return None` in the source.
* The network is a parameter: a fetch is a function from a page number
  to a `FetchResult` — a raised-and-caught `HTTPError`, a
  raised-and-uncaught other error (`URLError`, socket timeout), or a
  returned response carrying a status code and the outcome of
  `response.read()` (which can itself raise).  `BeautifulSoup` never
  fails, so a successfully read body is modelled directly as the
  document it parses to; an empty body is the empty document.
-/

namespace CarQuery

/-! ## Python string primitives -/

/-- ASCII lower-casing of one character, as Python `str.lower` acts on the
ASCII range (the tokens and labels this code feeds it are ASCII). -/
def lowerChar (c : Char) : Char :=
  if 65 ≤ c.toNat ∧ c.toNat ≤ 90 then Char.ofNat (c.toNat + 32) else c

/-- Python `str.lower` over a whole string. -/
def pyLower (s : String) : String :=
  ⟨s.data.map lowerChar⟩

/-- Python `str.strip()` with no argument: trim leading and trailing
whitespace (implemented structurally so that concrete instances reduce
inside the kernel). -/
def pyStrip (s : String) : String :=
  ⟨((s.data.dropWhile Char.isWhitespace).reverse.dropWhile
      Char.isWhitespace).reverse⟩

/-- Membership of a character in a strip set. -/
def charIn (cs : List Char) (c : Char) : Bool := cs.contains c

/-- Python `str.strip(chars)`: drop characters of `cs` from both ends. -/
def pyStripChars (cs : List Char) (s : String) : String :=
  ⟨((s.data.dropWhile (charIn cs)).reverse.dropWhile (charIn cs)).reverse⟩

/-- Python `str.split(sep)` on character lists, for a one-character
separator: splits at every occurrence and keeps empty pieces. -/
def splitChars (sep : Char) : List Char → List (List Char)
  | [] => [[]]
  | c :: cs =>
    let r := splitChars sep cs
    if c = sep then [] :: r
    else
      match r with
      | g :: gs => (c :: g) :: gs
      | [] => [[c]]

/-- Python `str.split(sep)` for a one-character separator. -/
def pySplit (sep : Char) (s : String) : List String :=
  (splitChars sep s.data).map (fun l => ⟨l⟩)

/-- Python `sep.join(parts)`. -/
def joinWith (sep : String) : List String → String
  | [] => ""
  | [x] => x
  | x :: xs => x ++ sep ++ joinWith sep xs

/-- Python `needle in hay` on strings: substring containment. -/
def pyContains (hay needle : String) : Bool :=
  (hay.toList.tails).any (fun t => needle.toList.isPrefixOf t)

/-- Python `str.endswith(suffix)`. -/
def pyEndsWith (s suffix : String) : Bool :=
  suffix.data.isSuffixOf s.data

/-- Python `str.replace('-', '_')` specialised to one-character pattern
and replacement (all occurrences). -/
def hyphenToUnderscore (s : String) : String :=
  ⟨s.data.map (fun c => if c = '-' then '_' else c)⟩

/-- Value of a decimal digit character sequence (the digits kept by
`re.sub` in `utils.parse_number`). -/
def digitsToNat (ds : List Char) : Nat :=
  ds.foldl (fun n c => n * 10 + (c.toNat - 48)) 0

/-- Python `str.isdigit` on an ASCII string: nonempty and all digits. -/
def pyIsDigit (s : String) : Bool :=
  !s.data.isEmpty && s.data.all Char.isDigit

/-- Python `str.partition(sep)` for a one-character separator: the text
before the first occurrence, and the remainder after it.  When the
separator does not occur the head is the whole string and the tail is
empty, exactly like Python. -/
def pyPartition (sep : Char) (s : String) : String × String :=
  match splitChars sep s.data with
  | [] => (s, "")
  | [x] => (⟨x⟩, "")
  | x :: rest => (⟨x⟩, joinWith ⟨[sep]⟩ (rest.map (fun l => ⟨l⟩)))

/-! ## `utils.parse_number`

```python
def parse_number(value, default=0):
    if isinstance(value, basestring):
        value = re.sub('[^0-9]+', '', value)
        if value:
            return int(value)
    return default
```

A non-string input (including `None`) falls through to the default. -/

/-- `utils.parse_number` restricted to string-or-None inputs (the only
inputs the embedded call sites produce). -/
def parse_number (value : Option String) : Nat :=
  match value with
  | none => 0
  | some s =>
    let ds := s.data.filter Char.isDigit
    if ds.isEmpty then 0 else digitsToNat ds

/-! ## Dynamic Python values and field dictionaries -/

/-- The dynamic values stored in the `kwargs` / `fields` dictionaries of
`AutoRecord`: `None`, a string, an integer, or a list of strings (the
`class` attribute value). -/
inductive PyVal where
  | null : PyVal
  | str (s : String) : PyVal
  | int (n : Int) : PyVal
  | list (xs : List String) : PyVal
deriving DecidableEq, Repr

/-- Dictionary lookup (`d[k]` / `d.get(k)`); `none` is a missing key. -/
def lookupField (d : List (String × PyVal)) (k : String) : Option PyVal :=
  match d.find? (fun p => p.1 = k) with
  | some p => some p.2
  | none => none

/-- Dictionary update of a single key (`d[k] = v`): replaces the existing
binding or appends a new one. -/
def setField (d : List (String × PyVal)) (k : String) (v : PyVal) :
    List (String × PyVal) :=
  if (d.find? (fun p => p.1 = k)).isSome then
    d.map (fun p => if p.1 = k then (k, v) else p)
  else
    d ++ [(k, v)]

/-- Python `dict.update`: apply every binding of `upd` to `base` in
order. -/
def dictUpdate (base upd : List (String × PyVal)) : List (String × PyVal) :=
  upd.foldl (fun d p => setField d p.1 p.2) base

/-! ## The catalog: `AutoModel`, `AutoMake`, `AutoSet` (`auto.py`)

`BaseAuto` carries `parent`, `token`, `label`; `AutoMake` adds the owned
`models` list and `AutoModel` reaches its make through `parent`.  The
embedding flattens the parent pointer: a model is stored inside its make,
and the operations that need `make.token` or `make.label` take the make
explicitly. -/

/-- `AutoModel`: token and label of one model (`auto.py`). -/
structure AutoModel where
  token : String
  label : String
deriving DecidableEq, Repr

/-- `AutoMake`: token and label of a manufacturer plus its owned models
(`auto.py`). -/
structure AutoMake where
  token : String
  label : String
  models : List AutoModel
deriving DecidableEq, Repr

/-- `BaseAuto.uuid` for a make: just the token. -/
def AutoMake.uuid (mk : AutoMake) : String := mk.token

/-- `AutoModel.uuid`: `make_token + "_" + model_token`. -/
def AutoModel.uuid (makeToken : String) (m : AutoModel) : String :=
  makeToken ++ "_" ++ m.token

/-- `AutoModel.title`: the human readable `"<make label> <model label>"`. -/
def AutoModel.title (makeLabel : String) (m : AutoModel) : String :=
  makeLabel ++ " " ++ m.label

/-- `BaseAuto.matches` for a make:
`value in (self.token, self.label, self.uuid)` with `uuid = token`. -/
def AutoMake.matches (mk : AutoMake) (value : String) : Bool :=
  value = mk.token || value = mk.label || value = mk.uuid

/-- `BaseAuto.matches` for a model: the uuid joins the make token. -/
def AutoModel.matches (makeToken : String) (m : AutoModel) (value : String) :
    Bool :=
  value = m.token || value = m.label || value = m.uuid makeToken

/-! ### `BaseAuto.from_soup`: reading a dropdown

```python
for option in drop_down.find_all('option'):
    token = str(option.get('value', 'none')).lower()
    label = str(option.get_text().strip())
    if token != 'all':
        result.append(cls(parent, token, label))
```

A missing page or a missing dropdown yields the empty list. -/

/-- One `<option>` element of a dropdown: its optional `value` attribute
and its text. -/
structure OptionTag where
  value : Option String
  text : String
deriving DecidableEq, Repr

/-- The `(token, label)` pair built from one option. -/
def entryOfOption (o : OptionTag) : String × String :=
  (pyLower (o.value.getD "none"), pyStrip o.text)

/-- `BaseAuto.from_soup`: `none` stands for a missing page or a page
without the dropdown; otherwise every option except the `"all"` sentinel
becomes an entry. -/
def from_soup (dropDown : Option (List OptionTag)) : List (String × String) :=
  match dropDown with
  | none => []
  | some opts =>
    (opts.map entryOfOption).filter (fun e => e.1 ≠ "all")

/-- `AutoMake.from_soup`: makes with empty model lists. -/
def AutoMake.from_soup (dropDown : Option (List OptionTag)) : List AutoMake :=
  (CarQuery.from_soup dropDown).map (fun e => ⟨e.1, e.2, []⟩)

/-- `AutoModel.from_soup`. -/
def AutoModel.from_soup (dropDown : Option (List OptionTag)) : List AutoModel :=
  (CarQuery.from_soup dropDown).map (fun e => ⟨e.1, e.2⟩)

/-! ### JSON serialization of the catalog cache -/

/-- The JSON values the catalog cache uses: strings, arrays, objects. -/
inductive Json where
  | str (s : String) : Json
  | arr (xs : List Json) : Json
  | obj (kvs : List (String × Json)) : Json
deriving Repr

/-- Key lookup in a JSON object body (`data[key]`; `none` is a
`KeyError`). -/
def jsonGet (kvs : List (String × Json)) (k : String) : Option Json :=
  match kvs.find? (fun p => p.1 = k) with
  | some p => some p.2
  | none => none

/-- `BaseAuto.serialize` for a model: `dict(token=..., label=...)`. -/
def AutoModel.serialize (m : AutoModel) : Json :=
  .obj [("token", .str m.token), ("label", .str m.label)]

/-- `AutoMake.serialize`: the base dictionary plus the serialized models
under the `"models"` key. -/
def AutoMake.serialize (mk : AutoMake) : Json :=
  .obj [("token", .str mk.token), ("label", .str mk.label),
        ("models", .arr (mk.models.map AutoModel.serialize))]

/-- `BaseAuto.deserialize` for a model: reads `data['token']` and
`data['label']` verbatim (no normalization); a missing key is a
`KeyError`, modelled as `Except.error`. -/
def AutoModel.deserialize (j : Json) : Except Unit AutoModel :=
  match j with
  | .obj kvs =>
    match jsonGet kvs "token", jsonGet kvs "label" with
    | some (.str t), some (.str l) => .ok ⟨t, l⟩
    | _, _ => .error ()
  | _ => .error ()

/-- `AutoMake.deserialize`: the base fields plus
`AutoModel.from_json(make, data)`, which reads `data['models']`. -/
def AutoMake.deserialize (j : Json) : Except Unit AutoMake :=
  match j with
  | .obj kvs =>
    match jsonGet kvs "token", jsonGet kvs "label", jsonGet kvs "models" with
    | some (.str t), some (.str l), some (.arr ms) => do
      let models ← ms.mapM AutoModel.deserialize
      .ok ⟨t, l, models⟩
    | _, _, _ => .error ()
  | _ => .error ()

/-- `AutoSet`: the embedding keeps the list of makes; the flattened model
set and the id maps of `AutoSet.populate` are derived views of it. -/
structure AutoSet where
  makes : List AutoMake
deriving DecidableEq, Repr

/-- The flattened model union of `AutoSet.populate`
(`utils.flatten(k.models for k in self.makes)`). -/
def AutoSet.models (s : AutoSet) : List AutoModel :=
  (s.makes.map AutoMake.models).flatten

/-- `AutoSet.save`: the JSON array `[k.serialize() for k in self.makes]`
(the JSON encoder and the file write are the identity on this value). -/
def AutoSet.save (s : AutoSet) : List Json :=
  s.makes.map AutoMake.serialize

/-- `AutoSet.load`: deserialize every element of the cached array and
repopulate; any `KeyError` propagates. -/
def AutoSet.load (payload : List Json) : Except Unit AutoSet := do
  let makes ← payload.mapM AutoMake.deserialize
  .ok ⟨makes⟩

/-- `AutoSet.refresh`: the landing page yields the makes from the make
dropdown; one further fetch per make yields its models.  The two page
inputs are parameters: the make dropdown of the landing page, and the
model dropdown of the per-make page keyed by the make token. -/
def AutoSet.refresh (makeDropDown : Option (List OptionTag))
    (modelDropDownFor : String → Option (List OptionTag)) : AutoSet :=
  let makes := AutoMake.from_soup makeDropDown
  ⟨makes.map (fun mk =>
    ⟨mk.token, mk.label, AutoModel.from_soup (modelDropDownFor mk.token)⟩)⟩

/-- `AutoSet.get_make`: the first make whose `matches` accepts the
term. -/
def AutoSet.get_make (s : AutoSet) (makeTerm : String) : Option AutoMake :=
  s.makes.find? (fun mk => mk.matches makeTerm)

/-- `AutoSet.get`: resolve a make term, then search that make's models
with the model term. -/
def AutoSet.get (s : AutoSet) (makeTerm modelTerm : String) :
    Option AutoModel :=
  match s.get_make makeTerm with
  | some make =>
    make.models.find? (fun m => AutoModel.matches make.token m modelTerm)
  | none => none

/-! ## The record parser: `AutoRecord` (`auto.py`)

A listing fragment is a `div` element with class token `"listing"`.  The
embedding captures exactly the pieces of markup `parse_record` queries:

* the class attribute of the element itself,
* the stripped text of the nested `div.price-info > span`, if the price
  block is present,
* the stripped text of the nested `a.js-vehicle-name`, if present,
* the `data-src` attribute of the image inside `a.js-vehicle-image`
  (`some ""` models a present but empty attribute; `none` models a
  missing anchor, image, or attribute),
* the `data-*` attributes of the element,
* every nested `<p>` element with its class attribute and stripped text.
-/

/-- One nested paragraph element, as `parse_data_element` sees it.  The
embedding assumes the paragraph carries a class attribute (a classless
paragraph would make `'paragraph-two' not in None` raise a `TypeError`
in the source; no claim depends on that path). -/
structure PTag where
  classes : List String
  text : String
deriving DecidableEq, Repr

/-- One listing fragment (`div.listing`). -/
structure Element where
  classes : List String
  priceText : Option String
  vehicleName : Option String
  imageDataSrc : Option String
  dataAttrs : List (String × String)
  paragraphs : List PTag
deriving DecidableEq, Repr

/-- `AutoRecord.LISTING_TYPES`: marker class to sale type. -/
def LISTING_TYPES : List (String × String) :=
  [("js-used-listing", "used"),
   ("js-new-listing", "new"),
   ("js-certified-listing", "certified")]

/-- `AutoRecord.NUMERIC_KEYS`, in source order. -/
def NUMERIC_KEYS : List String :=
  ["year", "price", "mileage", "distance",
   "current-index", "listing-id", "owner-id"]

/-- The `data-*` attribute keys copied verbatim by `parse_record`, in
source order. -/
def DATA_KEYS : List String :=
  ["current-index", "engine", "listing-id",
   "listing-type", "manufacturer", "owner-id"]

/-- `AutoRecord.DEFAULTS`, in source order.  Note that the defaults table
keys the dealer default under `dealer`, while the `dealer` property reads
`fields['dealer-name']`. -/
def DEFAULTS : List (String × PyVal) :=
  [("sale_type", .str "Unknown"), ("title", .str "Unknown"),
   ("doors", .str "Unknown"), ("style", .str "Unknown"),
   ("engine", .str "Unknown"), ("dealer", .str "Unknown"),
   ("distance", .str "Unknown"), ("interior", .str "Unknown"),
   ("exterior", .str "Unknown"), ("transmission", .str "Unknown"),
   ("thumb", .str ""), ("image", .str ""),
   ("year", .int 0), ("mileage", .int 0), ("price", .int 0),
   ("index", .int 0), ("listing_id", .int 0), ("owner_id", .int 0),
   ("html_class", .list [])]

/-- The first listing-type marker among the element classes
(`for html_cls in html_classes: if html_cls in cls.LISTING_TYPES`). -/
def saleTypeOfClasses : List String → Option String
  | [] => none
  | c :: rest =>
    match LISTING_TYPES.find? (fun p => p.1 = c) with
    | some p => some p.2
    | none => saleTypeOfClasses rest

/-- `AutoRecord.parse_data_element`: key/value extraction from one
paragraph.  Returns `none` for the `(None, None)` outcomes of the
source. -/
def parse_data_element (p : PTag) : Option (String × String) :=
  if !(p.classes.contains "paragraph-two") then none
  else
    let value0 := pyStrip p.text
    let kv : Option String × String :=
      if p.classes.contains "dealer-name" then (some "dealer-name", value0)
      else if p.classes.contains "distance" then (some "distance", value0)
      else if pyContains value0 ":" then
        (some (pyPartition ':' value0).1, (pyPartition ':' value0).2)
      else (none, value0)
    match kv with
    | (some key, value) =>
      if key ≠ "" ∧ value ≠ "" then
        let key := pyLower (pyStrip key)
        let value := pyStrip value
        let key := if key = "trans." then "transmission" else key
        some (key, value)
      else none
    | (none, _) => none

/-- `utils.parse_number` applied to a `kwargs` entry: only a string value
yields its digits; anything else (including a missing key and `None`)
yields the default `0`. -/
def parse_number_py (v : Option PyVal) : Nat :=
  match v with
  | some (.str s) => parse_number (some s)
  | _ => 0

/-- An `AutoRecord`: the field dictionary plus the `token` / `label` the
`BaseAuto` constructor keeps (`kwargs['listing_id']` and
`kwargs['title']`). -/
structure AutoRecord where
  fields : List (String × PyVal)
  token : PyVal
  label : PyVal
deriving DecidableEq, Repr

/-- The strip set used on title tokens: `t.strip('._ ')`. -/
def TITLE_STRIP : List Char := ['.', '_', ' ']

/-- `AutoRecord.parse_record`: build the `kwargs` dictionary from one
listing element, coerce the numeric keys, run the title heuristics, and
construct the record (`fields = dict(DEFAULTS)` updated with `kwargs`;
`token = kwargs['listing_id']`, `label = kwargs['title']`, both always
present at construction time). -/
def parse_record (makeLabel modelLabel : String) (e : Element) : AutoRecord :=
  let kwargs : List (String × PyVal) :=
    [("cls", .list e.classes), ("thumbnail", .null)]
  let kwargs :=
    match saleTypeOfClasses e.classes with
    | some st => setField kwargs "sale_type" (.str st)
    | none => kwargs
  let kwargs := setField kwargs "price"
    (match e.priceText with | some s => .str s | none => .null)
  let kwargs := setField kwargs "title"
    (match e.vehicleName with | some s => .str s | none => .null)
  let kwargs :=
    match e.imageDataSrc with
    | some src => if src ≠ "" then setField kwargs "thumbnail" (.str ("http:" ++ src))
                  else kwargs
    | none => kwargs
  let kwargs := DATA_KEYS.foldl (fun kw key =>
    let raw := match e.dataAttrs.find? (fun p => p.1 = key) with
      | some p => p.2
      | none => "None"
    setField kw (hyphenToUnderscore key) (.str raw)) kwargs
  let kwargs := e.paragraphs.foldl (fun kw p =>
    match parse_data_element p with
    | some (key, value) =>
      if key ≠ "" ∧ value ≠ "" then setField kw key (.str value) else kw
    | none => kw) kwargs
  let kwargs := NUMERIC_KEYS.foldl (fun kw key =>
    setField kw key (.int (parse_number_py (lookupField kw key)))) kwargs
  let kwargs :=
    match lookupField kwargs "title" with
    | some (.str t) =>
      if t ≠ "" then
        let tokens := (pySplit ' ' t).map (pyStripChars TITLE_STRIP)
        let years := ((tokens.filter pyIsDigit).map
          (fun s => digitsToNat s.data)).filter (fun y => 1980 < y)
        let kwargs :=
          match years with
          | y :: _ => setField kwargs "year" (.int y)
          | [] => kwargs
        let stripTokens :=
          ([makeLabel, modelLabel, "used", "new", "certified"] ++
            years.map toString).map pyLower
        let kwargs :=
          if tokens.any (fun tk => pyLower tk = "certified") then
            setField kwargs "sale_type" (.str "certified")
          else kwargs
        let style := tokens.filter (fun tk => !(stripTokens.contains (pyLower tk)))
        if style ≠ [] then
          setField kwargs "style" (.str (joinWith " " style))
        else kwargs
      else kwargs
    | _ => kwargs
  { fields := dictUpdate DEFAULTS kwargs
    token := (lookupField kwargs "listing_id").getD .null
    label := (lookupField kwargs "title").getD .null }

/-! ### `AutoRecord` properties -/

/-- The `dealer` property: `self.fields['dealer-name']`.  A missing key
is a raised `KeyError`, modelled as `Except.error`. -/
def AutoRecord.dealer (r : AutoRecord) : Except Unit PyVal :=
  match lookupField r.fields "dealer-name" with
  | some v => .ok v
  | none => .error ()

/-- The `title` property: the style override when it is not the default,
else the raw parsed title (the `style` key always has a default). -/
def AutoRecord.title (r : AutoRecord) : PyVal :=
  match lookupField r.fields "style" with
  | some v => if v ≠ .str "Unknown" then v
              else (lookupField r.fields "title").getD .null
  | none => .null

/-- The derived `sale_type` property.  `fields['title'].lower()` raises
an `AttributeError` when the stored title is `None`, and `in` /
comparisons need both values to be strings; the error branch models the
raise. -/
def AutoRecord.sale_type (r : AutoRecord) : Except Unit String :=
  match lookupField r.fields "sale_type", lookupField r.fields "title" with
  | some (.str st0), some (.str t0) =>
    let st := pyLower st0
    let t := pyLower t0
    if pyContains t "certified" || st = "certified" then .ok "C"
    else if st = "used" then .ok "U"
    else if st = "new" then .ok "N"
    else .ok st
  | _, _ => .error ()

/-- The `listing_id` property: the raw stored field value. -/
def AutoRecord.listing_id (r : AutoRecord) : Option PyVal :=
  lookupField r.fields "listing_id"

/-- Python 2 `round`: halfway cases round away from zero; `int(...)` of
the result is the integer itself. -/
def roundHalfAway (q : ℚ) : Int :=
  if 0 ≤ q then ⌊q + 1 / 2⌋ else ⌈q - 1 / 2⌉

/-- The `age` property as a function of the ambient current year:
`CURRENT_YEAR - self.year`. -/
def AutoRecord.age_formula (currentYear year : Int) : Int :=
  currentYear - year

/-- The arithmetic of the `quality` property on integer field values,
over exact rationals:
`round(price / 500 - mileage / 10000 - age / 2)`. -/
def AutoRecord.quality_formula (currentYear price mileage year : Int) : Int :=
  roundHalfAway ((price : ℚ) / 500 - (mileage : ℚ) / 10000 -
    ((AutoRecord.age_formula currentYear year : Int) : ℚ) / 2)

/-- The `quality` property of a record: reads the `price`, `mileage` and
`year` fields (integers after numeric coercion; any other stored shape
would make `float(...)` raise, modelled as the error branch). -/
def AutoRecord.quality (currentYear : Int) (r : AutoRecord) :
    Except Unit Int :=
  match lookupField r.fields "price", lookupField r.fields "mileage",
        lookupField r.fields "year" with
  | some (.int p), some (.int m), some (.int y) =>
    .ok (AutoRecord.quality_formula currentYear p m y)
  | _, _, _ => .error ()

/-- The `age` property of a record. -/
def AutoRecord.age (currentYear : Int) (r : AutoRecord) : Except Unit Int :=
  match lookupField r.fields "year" with
  | some (.int y) => .ok (AutoRecord.age_formula currentYear y)
  | _ => .error ()

/-! ## The scrape pipeline: `Session` and `AutoQuery` (`session.py`)

One page fetch is a `FetchResult`, the outcome of `urllib2.urlopen`:
it raised `urllib2.HTTPError` (the only exception the `except` clause of
`get_page_response` catches), it raised some other exception — typically
a `urllib2.URLError` or a socket timeout, which nothing catches — or it
returned a response.  A returned response carries its status code and
the outcome of `response.read()`, which can itself raise (a socket error
mid-body); a successful read is modelled by the document the body parses
to, since `BeautifulSoup` parses any bytes without failing — an empty or
unusable body is simply a document with no marker spans and no listings.
A `Soup` records the two element families the pipeline queries: the
texts of the `span.filter-highlight` elements and the `div.listing`
fragments, each in document order. -/

/-- A parsed page. -/
structure Soup where
  spans : List String
  listings : List Element
deriving DecidableEq, Repr

deriving instance DecidableEq for Except

/-- A returned `urllib2` response: its status code and the outcome of
`response.read()` (`Except.error` models a read that raises; nothing in
`get_page_soup` catches it). -/
structure Response where
  status : Nat
  body : Except Unit Soup
deriving DecidableEq, Repr

/-- The outcome of one `urllib2` GET: a raised-and-caught `HTTPError`, a
raised-and-uncaught other error (`URLError`, socket timeout), or a
returned response. -/
inductive FetchResult where
  | httpError : FetchResult
  | netError : FetchResult
  | response (r : Response) : FetchResult
deriving DecidableEq, Repr

/-- `Session.get_page_response`: the `except urllib2.HTTPError` clause
catches exactly `HTTPError` and yields `None`; any other raised error
propagates (first `Except.error` branch); a returned response with a
status other than 200 raises `RuntimeError` (second error branch);
otherwise the response is handed back. -/
def get_page_response (f : FetchResult) : Except Unit (Option Response) :=
  match f with
  | .httpError => .ok none
  | .netError => .error ()
  | .response r =>
    if r.status = 200 then .ok (some r) else .error ()

/-- `Session.get_page_soup`: `None` stays `None`; otherwise
`response.read()` runs — a read error propagates, nothing catches it —
and the body is parsed (always successfully) into its document.  The
politeness sleep has no observable effect here. -/
def get_page_soup (f : FetchResult) : Except Unit (Option Soup) :=
  match get_page_response f with
  | .error e => .error e
  | .ok none => .ok none
  | .ok (some r) =>
    match r.body with
    | .error e => .error e
    | .ok soup => .ok (some soup)

/-- `AutoQuery.NUM_RECORDS`. -/
def NUM_RECORDS : Nat := 100

/-- `int(math.ceil(float(total) / NUM_RECORDS))` for natural inputs. -/
def pyCeilDiv (total n : Nat) : Nat := (total + n - 1) / n

/-- The span scan of `AutoQuery._get_num_pages`: the first span whose
stripped, lower-cased text ends in `" cars"` determines the page count;
no such span means one page. -/
def num_pages_scan : List String → Nat
  | [] => 1
  | t :: rest =>
    let txt := pyLower (pyStrip t)
    if pyEndsWith txt " cars" then
      max 1 (pyCeilDiv (parse_number (some txt)) NUM_RECORDS)
    else num_pages_scan rest

/-- `AutoQuery._get_num_pages`: `1` for a missing document. -/
def get_num_pages (soup : Option Soup) : Nat :=
  match soup with
  | none => 1
  | some s => num_pages_scan s.spans

/-- The record identity used by the Python `set` (`__hash__` / `__eq__`
compare `self.listing_id`, the stored field value). -/
def insertRecord (acc : List AutoRecord) (r : AutoRecord) : List AutoRecord :=
  if acc.any (fun x => decide (x.listing_id = r.listing_id)) then acc
  else acc ++ [r]

/-- The make and model labels a record parse needs
(`auto_model.make.label` and `auto_model.label`). -/
structure ModelRef where
  makeLabel : String
  modelLabel : String
deriving DecidableEq, Repr

/-- `AutoRecord.from_soup`: parse every `div.listing` fragment and
accumulate into a set keyed by `listing_id` (first occurrence kept; the
arbitrary iteration order of the Python set is modelled as insertion
order, which only feeds a subsequent sort). -/
def records_from_soup (m : ModelRef) (s : Soup) : List AutoRecord :=
  s.listings.foldl
    (fun acc e => insertRecord acc (parse_record m.makeLabel m.modelLabel e))
    []

/-- One yielded pair of `_iter_records`: the parsed records of the page
and the fractional progress `page / num_pages`. -/
abbrev PageYield := List AutoRecord × ℚ

/-- `float(page) / float(num_pages)` over exact rationals. -/
def progress_frac (page numPages : Nat) : ℚ :=
  (page : ℚ) / (numPages : ℚ)

/-- The pages of `_iter_records` after the first: the loop body for
`page` ranging while `page <= num_pages`, with `fuel = num_pages - page + 1`
iterations left.  The second component records a `RuntimeError` escaping
`get_page_soup` (the generator then propagates it); pages yielded before
the raise are kept.  A `None` document yields its empty record batch and
then breaks. -/
def iter_records_loop (fetch : Nat → FetchResult) (m : ModelRef)
    (numPages : Nat) : Nat → Nat → List PageYield × Option Unit
  | 0, _ => ([], none)
  | fuel + 1, page =>
    match get_page_soup (fetch page) with
    | .error e => ([], some e)
    | .ok none => ([([], progress_frac page numPages)], none)
    | .ok (some s) =>
      let rest := iter_records_loop fetch m numPages fuel (page + 1)
      ((records_from_soup m s, progress_frac page numPages) :: rest.1,
       rest.2)

/-- `AutoQuery._iter_records` for one model: fetch page 1, derive
`num_pages` from it, yield its records, then continue with the loop.
`fetch` maps a page number to the outcome of requesting that page's
URL. -/
def iter_records (fetch : Nat → FetchResult) (m : ModelRef) :
    List PageYield × Option Unit :=
  match get_page_soup (fetch 1) with
  | .error e => ([], some e)
  | .ok none => ([([], progress_frac 1 (get_num_pages none))], none)
  | .ok (some s) =>
    let numPages := get_num_pages (some s)
    let rest := iter_records_loop fetch m numPages (numPages - 1) 2
    ((records_from_soup m s, progress_frac 1 numPages) :: rest.1, rest.2)

/-! ### Ordering records by display title (Python 2 `cmp`) -/

/-- The Python 2 type rank used by `cmp` on mixed types: `None` sorts
below everything; `int`, `list`, `str` order by type name. -/
def pyValRank : PyVal → Nat
  | .null => 0
  | .int _ => 1
  | .list _ => 2
  | .str _ => 3

/-- Python 2 `cmp`-as-`≤` on the values a record title can hold.  The
sort key of `AutoRecord.__cmp__` is the `title` property, which is
always `None` or a string; the `list`/`list` tie-break (elementwise in
Python) is immaterial here and modelled as a single equivalence class. -/
def pyValLe (a b : PyVal) : Bool :=
  match a, b with
  | .null, .null => true
  | .int m, .int n => decide (m ≤ n)
  | .str s, .str t => decide (s ≤ t)
  | .list _, .list _ => true
  | x, y => decide (pyValRank x ≤ pyValRank y)

/-- `AutoRecord.__cmp__`: records order by their `title` property. -/
def record_le (a b : AutoRecord) : Bool :=
  pyValLe a.title b.title

/-- The ordering relation of the final `records.sort()`. -/
def recordOrder (a b : AutoRecord) : Prop := record_le a b = true

instance : DecidableRel recordOrder :=
  fun a b => instDecidableEqBool (record_le a b) true

/-- The inner loop of `AutoQuery.populate`: iterate the models in order,
merging every yielded page into the accumulated set; a `RuntimeError`
escaping the generator aborts the whole call. -/
def populate_loop (fetch : Nat → Nat → FetchResult) :
    List ModelRef → Nat → List AutoRecord → Except Unit (List AutoRecord)
  | [], _, acc => .ok acc
  | m :: rest, idx, acc =>
    let it := iter_records (fetch idx) m
    let acc := it.1.foldl (fun a pr => pr.1.foldl insertRecord a) acc
    match it.2 with
    | some e => .error e
    | none => populate_loop fetch rest (idx + 1) acc

/-- `AutoQuery.populate`: clear the set, scrape every model, then sort
the accumulated records by display title and return them.  `fetch` maps
(model index, page number) to a request outcome. -/
def populate (fetch : Nat → Nat → FetchResult) (models : List ModelRef) :
    Except Unit (List AutoRecord) :=
  match populate_loop fetch models 0 [] with
  | .error e => .error e
  | .ok recs => .ok (List.insertionSort recordOrder recs)

/-! ## The aggregation tree (`views.py`)

`TreeRow.num_records` reads only each node's `hidden` flag and `children`
list, so a tree node is modelled by exactly those: a `group` is a
`RootRow`/`TreeGroup` with its populated children, a `leaf` is an
`AutoRow`, whose `populate` always leaves `children` empty. -/

/-- A populated tree node. -/
inductive TreeRow where
  | group (hidden : Bool) (children : List TreeRow) : TreeRow
  | leaf (hidden : Bool) (record : AutoRecord) : TreeRow

/-- The `hidden` flag of a node. -/
def TreeRow.hiddenFlag : TreeRow → Bool
  | .group h _ => h
  | .leaf h _ => h

/-- The `children` list of a node (`AutoRow.populate` sets it empty). -/
def TreeRow.childList : TreeRow → List TreeRow
  | .group _ cs => cs
  | .leaf _ _ => []

mutual

/-- `TreeRow.num_records`:
`0 if self.hidden or not self.children else sum(c.num_records for c in self.children)`.
`AutoRow` does not override it, so a leaf always hits the
empty-children guard. -/
def TreeRow.num_records : TreeRow → Nat
  | .leaf _ _ => 0
  | .group h cs => if h || cs.isEmpty then 0 else sum_num_records cs

/-- The sum of `num_records` over a child list. -/
def sum_num_records : List TreeRow → Nat
  | [] => 0
  | t :: ts => TreeRow.num_records t + sum_num_records ts

end

/-- The dictionary `TreeRow.get_stats` builds for a nonempty value list.
The code stores `math.sqrt(sum(sq_diffs) / num_items)` under `stddev`;
the square root of an integer is not representable exactly, so the
embedding keeps its radicand (`stddev_sq`).  All other entries are the
exact Python 2 values: `/` on integers floors (`Int.fdiv`), while the
`median` midpoint divides as a float (`ℚ`). -/
structure Stats where
  stddev_sq : Int
  mean : Int
  count : Nat
  minimum : Int
  maximum : Int
  range : Int
  median : ℚ
deriving DecidableEq, Repr

/-- `TreeRow.get_stats` on the value list of a column.  For an empty
list the source builds `dict(mean=0, minimum=0, maximum=0, stddev=0,
count=0)` but does not return it, and the following
`sum(values) / num_items` raises `ZeroDivisionError` (the error
branch). -/
def get_stats : List Int → Except Unit Stats
  | [] => .error ()
  | v :: vs =>
    let values := v :: vs
    let numItems : Int := (values.length : Int)
    let mean := Int.fdiv values.sum numItems
    let sqDiffs := (values.map (fun x => x - mean)).map (fun d => d ^ 2)
    let minimum := vs.foldl min v
    let maximum := vs.foldl max v
    let range := maximum - minimum
    .ok ⟨Int.fdiv sqDiffs.sum numItems, mean, values.length,
         minimum, maximum, range, (range : ℚ) / 2 + (minimum : ℚ)⟩

/-! ## Derived predicates and concrete inputs used by the verification -/

/-- The first-page document as `_iter_records` sees it: the parsed
document of page 1, or `None` when the fetch failed; when the fetch
raises, the loop never derives a page count, and the initial
`num_pages = 1` is what the bound degenerates to (`get_num_pages none`). -/
def firstSoup (fetch : Nat → FetchResult) : Option Soup :=
  match get_page_soup (fetch 1) with
  | .ok s => s
  | .error _ => none

/-- A fetch outcome on which `get_page_soup` cannot raise: either the
GET raised an `HTTPError` (the one caught case), or it returned a
response with status 200 whose body read succeeds.  An uncaught
`URLError`/socket error, a non-200 status, and a failing
`response.read()` all fall outside. -/
def fetch_ok (f : FetchResult) : Prop :=
  match f with
  | .httpError => True
  | .netError => False
  | .response r => r.status = 200 ∧ ∃ s : Soup, r.body = .ok s

/-- The token invariant of the specification: every make and model entry
of a catalog is lower-case and is not the `"all"` sentinel. -/
def tokenInvariant (c : AutoSet) : Prop :=
  ∀ mk ∈ c.makes,
    mk.token = pyLower mk.token ∧ mk.token ≠ "all" ∧
    ∀ m ∈ mk.models, m.token = pyLower m.token ∧ m.token ≠ "all"

/-- A minimal listing fragment: a `div` with only the `listing` class, no
price block, no vehicle-name anchor, no image, no data attributes and no
paragraphs.  Every extraction rule misses on it. -/
def bareListing : Element := ⟨["listing"], none, none, none, [], []⟩

/-- A listing fragment carrying the scenario values of the specification:
price `15000`, mileage `40000`, and year `2015` taken from the title. -/
def scenarioListing : Element :=
  ⟨["listing", "js-used-listing"], some "$15,000",
   some "2015 Toyota Camry XL", none, [("listing-id", "12345")],
   [⟨["paragraph-two"], "Mileage: 40,000"⟩]⟩

/-- The record parsed from `scenarioListing` for a Toyota Camry. -/
def scenarioRecord : AutoRecord := parse_record "Toyota" "Camry" scenarioListing

/-- The catalog of the resolution scenario: one make
`token "toyota" / label "Toyota"` owning one model
`token "camry" / label "Camry"`. -/
def camryModel : AutoModel := ⟨"camry", "Camry"⟩

/-- The Toyota make of the resolution scenario. -/
def toyotaMake : AutoMake := ⟨"toyota", "Toyota", [camryModel]⟩

/-- The catalog of the resolution scenario. -/
def scenarioCatalog : AutoSet := ⟨[toyotaMake]⟩

/-- A cache payload whose entries violate the token invariant: an
upper-case token and the `"all"` sentinel. -/
def badPayload : List Json :=
  [Json.obj [("token", .str "ALL"), ("label", .str "Any"), ("models", .arr [])],
   Json.obj [("token", .str "all"), ("label", .str "all"), ("models", .arr [])]]

/-- A model reference used by concrete pipeline runs. -/
def camryRef : ModelRef := ⟨"Toyota", "Camry"⟩

/-- A first-page document advertising 342 results
(`"342 Cars"` marker span), hence 4 pages of 100. -/
def markerSoup : Soup := ⟨["  342 Cars  "], []⟩

/-! ## Helper lemmas -/

/-- Lowering an already lowered character changes nothing. -/
theorem lowerChar_idem (c : Char) : lowerChar (lowerChar c) = lowerChar c := by
  by_cases h : 65 ≤ c.toNat ∧ c.toNat ≤ 90
  · obtain ⟨h1, h2⟩ := h
    have hv : (Char.ofNat (c.toNat + 32)).toNat = c.toNat + 32 := by
      interval_cases hn : c.toNat <;> decide
    have e1 : lowerChar c = Char.ofNat (c.toNat + 32) := by
      unfold lowerChar
      rw [if_pos ⟨h1, h2⟩]
    rw [e1]
    unfold lowerChar
    rw [if_neg]
    rw [hv]
    omega
  · have e1 : lowerChar c = c := by
      unfold lowerChar
      rw [if_neg h]
    rw [e1, e1]

/-- Python `str.lower` is idempotent. -/
theorem pyLower_idem (s : String) : pyLower (pyLower s) = pyLower s := by
  simp [pyLower, List.map_map, Function.comp_def, lowerChar_idem]

/-- Deserializing a serialized model recovers it. -/
theorem model_deserialize_serialize (m : AutoModel) :
    AutoModel.deserialize m.serialize = .ok m := rfl

/-- Deserializing a serialized model list recovers it (stated over the
tail-recursive `mapM` loop and an arbitrary accumulator). -/
theorem mapM_loop_model_deserialize_serialize :
    ∀ (ms acc : List AutoModel),
    List.mapM.loop AutoModel.deserialize (ms.map AutoModel.serialize) acc =
      .ok (acc.reverse ++ ms)
  | [], acc => by
    simp [List.mapM.loop]
    rfl
  | m :: rest, acc => by
    have ih := mapM_loop_model_deserialize_serialize rest (m :: acc)
    simp only [List.map_cons, List.mapM.loop, model_deserialize_serialize]
    show List.mapM.loop AutoModel.deserialize (rest.map AutoModel.serialize)
      (m :: acc) = _
    rw [ih]
    simp

/-- Deserializing a serialized make recovers it, models included. -/
theorem make_deserialize_serialize (mk : AutoMake) :
    AutoMake.deserialize mk.serialize = .ok mk := by
  cases mk with
  | mk t l ms =>
    show (do
      let models ← List.mapM AutoModel.deserialize
        (ms.map AutoModel.serialize)
      Except.ok (⟨t, l, models⟩ : AutoMake)) = _
    show (do
      let models ← List.mapM.loop AutoModel.deserialize
        (ms.map AutoModel.serialize) []
      Except.ok (⟨t, l, models⟩ : AutoMake)) = _
    rw [mapM_loop_model_deserialize_serialize ms []]
    rfl

/-- Deserializing a serialized make list recovers it. -/
theorem mapM_loop_make_deserialize_serialize :
    ∀ (ks acc : List AutoMake),
    List.mapM.loop AutoMake.deserialize (ks.map AutoMake.serialize) acc =
      .ok (acc.reverse ++ ks)
  | [], acc => by
    simp [List.mapM.loop]
    rfl
  | k :: rest, acc => by
    have ih := mapM_loop_make_deserialize_serialize rest (k :: acc)
    simp only [List.map_cons, List.mapM.loop, make_deserialize_serialize]
    show List.mapM.loop AutoMake.deserialize (rest.map AutoMake.serialize)
      (k :: acc) = _
    rw [ih]
    simp

/-- Loading a saved catalog recovers it exactly. -/
theorem AutoSet.load_save (c : AutoSet) :
    AutoSet.load (AutoSet.save c) = .ok c := by
  cases c with
  | mk makes =>
    show (do
      let ks ← List.mapM.loop AutoMake.deserialize
        (makes.map AutoMake.serialize) []
      Except.ok (⟨ks⟩ : AutoSet)) = _
    rw [mapM_loop_make_deserialize_serialize makes []]
    rfl

/-- Every entry produced by a dropdown scan is lower-case and is not the
`"all"` sentinel. -/
theorem from_soup_token_inv (dd : Option (List OptionTag)) :
    ∀ e ∈ from_soup dd, e.1 = pyLower e.1 ∧ e.1 ≠ "all" := by
  intro e he
  cases dd with
  | none => simp [from_soup] at he
  | some opts =>
    simp only [from_soup, List.mem_filter, List.mem_map] at he
    obtain ⟨⟨o, _, rfl⟩, hne⟩ := he
    refine ⟨?_, by simpa using hne⟩
    simp [entryOfOption, pyLower_idem]

/-- The span scan equals the first-matching-span characterization of the
specification. -/
theorem num_pages_scan_eq_find (spans : List String) :
    num_pages_scan spans =
      match spans.find? (fun t => pyEndsWith (pyLower (pyStrip t)) " cars") with
      | some t =>
        max 1 (pyCeilDiv (parse_number (some (pyLower (pyStrip t)))) NUM_RECORDS)
      | none => 1 := by
  induction spans with
  | nil => rfl
  | cons t rest ih =>
    by_cases h : pyEndsWith (pyLower (pyStrip t)) " cars"
    · simp [num_pages_scan, List.find?_cons_of_pos, h]
    · rw [num_pages_scan]
      simp only [h, if_false]
      rw [List.find?_cons_of_neg _ (by simpa using h)]
      exact ih

/-- The derived page count is always at least one. -/
theorem one_le_get_num_pages (soup : Option Soup) :
    1 ≤ get_num_pages soup := by
  cases soup with
  | none => exact le_refl 1
  | some s =>
    show 1 ≤ num_pages_scan s.spans
    induction s.spans with
    | nil => exact le_refl 1
    | cons t rest ih =>
      rw [num_pages_scan]
      by_cases h : pyEndsWith (pyLower (pyStrip t)) " cars"
      · simp only [h, if_true]
        exact le_max_left 1 _
      · simpa [h] using ih

/-- A fetch outcome with an acceptable status never raises inside
`get_page_soup`. -/
theorem get_page_soup_ok_of_status (f : FetchResult) (h : fetch_ok f) :
    ∃ s : Option Soup, get_page_soup f = .ok s := by
  cases f with
  | httpError => exact ⟨none, rfl⟩
  | netError => exact absurd h (by simp [fetch_ok])
  | response r =>
    obtain ⟨h200, s, hs⟩ := h
    exact ⟨some s, by simp [get_page_soup, get_page_response, h200, hs]⟩

/-- The page loop never yields more tuples than it has fuel. -/
theorem iter_records_loop_length_le (fetch : Nat → FetchResult) (m : ModelRef)
    (np : Nat) : ∀ fuel page,
    (iter_records_loop fetch m np fuel page).1.length ≤ fuel := by
  intro fuel
  induction fuel with
  | zero => intro page; simp [iter_records_loop]
  | succ fuel ih =>
    intro page
    rcases hs : get_page_soup (fetch page) with e | s
    · simp [iter_records_loop, hs]
    · cases s with
      | none => simp [iter_records_loop, hs]
      | some s0 =>
        simp only [iter_records_loop, hs, List.length_cons]
        exact Nat.succ_le_succ (ih (page + 1))

/-- The `i`-th tuple the page loop yields carries the progress of page
`page + i`. -/
theorem iter_records_loop_get_snd (fetch : Nat → FetchResult) (m : ModelRef)
    (np : Nat) : ∀ fuel page i (pr : PageYield),
    (iter_records_loop fetch m np fuel page).1[i]? = some pr →
    pr.2 = progress_frac (page + i) np := by
  intro fuel
  induction fuel with
  | zero =>
    intro page i pr h
    simp [iter_records_loop] at h
  | succ fuel ih =>
    intro page i pr h
    rcases hs : get_page_soup (fetch page) with e | s
    · simp [iter_records_loop, hs] at h
    · cases s with
      | none =>
        rcases i with _ | i
        · simp only [iter_records_loop, hs, List.getElem?_cons_zero,
            Option.some_inj] at h
          rw [← h]
          simp [progress_frac]
        · simp [iter_records_loop, hs] at h
      | some s0 =>
        rcases i with _ | i
        · simp only [iter_records_loop, hs, List.getElem?_cons_zero,
            Option.some_inj] at h
          rw [← h]
          simp [progress_frac]
        · simp only [iter_records_loop, hs, List.getElem?_cons_succ] at h
          have := ih (page + 1) i pr h
          rw [this]
          congr 1
          omega

/-- When every page in the remaining range yields a document, the loop
runs its fuel out. -/
theorem iter_records_loop_length_full (fetch : Nat → FetchResult)
    (m : ModelRef) (np : Nat) : ∀ fuel page,
    (∀ p, page ≤ p → p < page + fuel →
      ∃ s : Soup, get_page_soup (fetch p) = .ok (some s)) →
    (iter_records_loop fetch m np fuel page).1.length = fuel := by
  intro fuel
  induction fuel with
  | zero => intro page _; simp [iter_records_loop]
  | succ fuel ih =>
    intro page hall
    obtain ⟨s, hs⟩ := hall page (le_refl page) (by omega)
    simp only [iter_records_loop, hs, List.length_cons]
    rw [ih (page + 1) (fun p h1 h2 => hall p (by omega) (by omega))]

/-- With acceptable statuses everywhere, the loop never records a raised
`RuntimeError`. -/
theorem iter_records_loop_err_none (fetch : Nat → FetchResult) (m : ModelRef)
    (np : Nat) (hstat : ∀ p, fetch_ok (fetch p)) : ∀ fuel page,
    (iter_records_loop fetch m np fuel page).2 = none := by
  intro fuel
  induction fuel with
  | zero => intro page; simp [iter_records_loop]
  | succ fuel ih =>
    intro page
    obtain ⟨s, hs⟩ := get_page_soup_ok_of_status (fetch page) (hstat page)
    cases s with
    | none => simp [iter_records_loop, hs]
    | some s0 => simp [iter_records_loop, hs, ih (page + 1)]

/-- The page iteration yields at most `num_pages` tuples, where
`num_pages` is derived from the first page alone. -/
theorem iter_records_length_le (fetch : Nat → FetchResult) (m : ModelRef) :
    (iter_records fetch m).1.length ≤ get_num_pages (firstSoup fetch) := by
  rcases hs : get_page_soup (fetch 1) with e | s
  · simp [iter_records, hs]
  · cases s with
    | none =>
      simp [iter_records, hs, firstSoup, get_num_pages]
    | some s0 =>
      have hf : firstSoup fetch = some s0 := by simp [firstSoup, hs]
      rw [hf]
      simp only [iter_records, hs, List.length_cons]
      have hle := iter_records_loop_length_le fetch m
        (get_num_pages (some s0)) (get_num_pages (some s0) - 1) 2
      have h1 := one_le_get_num_pages (some s0)
      omega

/-- The `i`-th tuple of the iteration carries progress
`(i + 1) / num_pages`. -/
theorem iter_records_get_snd (fetch : Nat → FetchResult) (m : ModelRef) :
    ∀ i (pr : PageYield), (iter_records fetch m).1[i]? = some pr →
    pr.2 = progress_frac (i + 1) (get_num_pages (firstSoup fetch)) := by
  intro i pr h
  rcases hs : get_page_soup (fetch 1) with e | s
  · simp [iter_records, hs] at h
  · cases s with
    | none =>
      have hf : firstSoup fetch = none := by simp [firstSoup, hs]
      rcases i with _ | i
      · simp only [iter_records, hs, List.getElem?_cons_zero,
          Option.some_inj] at h
        rw [hf, ← h]
      · simp [iter_records, hs] at h
    | some s0 =>
      have hf : firstSoup fetch = some s0 := by simp [firstSoup, hs]
      rcases i with _ | i
      · simp only [iter_records, hs, List.getElem?_cons_zero,
          Option.some_inj] at h
        rw [hf, ← h]
      · simp only [iter_records, hs, List.getElem?_cons_succ] at h
        have := iter_records_loop_get_snd fetch m (get_num_pages (some s0))
          (get_num_pages (some s0) - 1) 2 i pr h
        rw [hf, this]
        congr 1
        omega

/-- When every page in `1..num_pages` yields a document, the iteration
yields exactly `num_pages` tuples. -/
theorem iter_records_length_full (fetch : Nat → FetchResult) (m : ModelRef)
    (hall : ∀ p, 1 ≤ p → p ≤ get_num_pages (firstSoup fetch) →
      ∃ s : Soup, get_page_soup (fetch p) = .ok (some s)) :
    (iter_records fetch m).1.length = get_num_pages (firstSoup fetch) := by
  rcases hs : get_page_soup (fetch 1) with e | s
  · exfalso
    obtain ⟨s, hs2⟩ := hall 1 (le_refl 1)
      (one_le_get_num_pages (firstSoup fetch))
    rw [hs] at hs2
    exact Except.noConfusion hs2
  · cases s with
    | none =>
      have hf : firstSoup fetch = none := by simp [firstSoup, hs]
      simp [iter_records, hs, hf, get_num_pages]
    | some s0 =>
      have hf : firstSoup fetch = some s0 := by simp [firstSoup, hs]
      rw [hf]
      simp only [iter_records, hs, List.length_cons]
      rw [hf] at hall
      have h1 := one_le_get_num_pages (some s0)
      rw [iter_records_loop_length_full fetch m (get_num_pages (some s0))
        (get_num_pages (some s0) - 1) 2
        (fun p hp1 hp2 => hall p (by omega) (by omega))]
      omega

/-- With acceptable statuses everywhere, the iteration never records a
raised `RuntimeError`. -/
theorem iter_records_err_none (fetch : Nat → FetchResult) (m : ModelRef)
    (hstat : ∀ p, fetch_ok (fetch p)) :
    (iter_records fetch m).2 = none := by
  obtain ⟨s, hs⟩ := get_page_soup_ok_of_status (fetch 1) (hstat 1)
  cases s with
  | none => simp [iter_records, hs]
  | some s0 =>
    simp [iter_records, hs,
      iter_records_loop_err_none fetch m _ hstat _ 2]

/-- The record ordering is total. -/
theorem pyValLe_total (a b : PyVal) :
    pyValLe a b = true ∨ pyValLe b a = true := by
  cases a <;> cases b <;> simp [pyValLe, pyValRank] <;>
    first
    | omega
    | exact le_total _ _

/-- The record ordering is transitive. -/
theorem pyValLe_trans (a b c : PyVal) (h1 : pyValLe a b = true)
    (h2 : pyValLe b c = true) : pyValLe a c = true := by
  cases a <;> cases b <;> cases c <;>
    simp_all [pyValLe, pyValRank] <;>
    first
    | omega
    | exact le_trans h1 h2

instance : IsTotal AutoRecord recordOrder :=
  ⟨fun a b => pyValLe_total a.title b.title⟩

instance : IsTrans AutoRecord recordOrder :=
  ⟨fun a b c h1 h2 => pyValLe_trans a.title b.title c.title h1 h2⟩

/-- With acceptable statuses everywhere, `populate` reaches the sorting
step: no model's iteration raises. -/
theorem populate_loop_ok (fetch : Nat → Nat → FetchResult)
    (hstat : ∀ i p, fetch_ok (fetch i p)) :
    ∀ (models : List ModelRef) (idx : Nat) (acc : List AutoRecord),
    ∃ l, populate_loop fetch models idx acc = .ok l := by
  intro models
  induction models with
  | nil => exact fun idx acc => ⟨acc, rfl⟩
  | cons mm rest ih =>
    intro idx acc
    have herr := iter_records_err_none (fetch idx) mm (hstat idx)
    simp only [populate_loop, herr]
    exact ih (idx + 1) _

/-! ## Claim theorems -/

/-- C5: the page iteration of one model terminates (it is a total
function of the embedding) and yields at most `num_pages` tuples, where
`num_pages` is derived from the first page alone: the first marker span
whose stripped lower-cased text ends in `" cars"` gives
`max 1 (ceil(total / 100))`, and `num_pages = 1` when no marker span or
no first-page document is present. -/
theorem C5_pagination_terminates_bounded (fetch : Nat → FetchResult)
    (m : ModelRef) :
    1 ≤ get_num_pages (firstSoup fetch) ∧
    (iter_records fetch m).1.length ≤ get_num_pages (firstSoup fetch) ∧
    (∀ s : Soup, firstSoup fetch = some s →
      (∀ t, s.spans.find?
          (fun t0 => pyEndsWith (pyLower (pyStrip t0)) " cars") = some t →
        get_num_pages (firstSoup fetch) =
          max 1 (pyCeilDiv (parse_number (some (pyLower (pyStrip t)))) 100)) ∧
      (s.spans.find?
          (fun t0 => pyEndsWith (pyLower (pyStrip t0)) " cars") = none →
        get_num_pages (firstSoup fetch) = 1)) ∧
    (firstSoup fetch = none → get_num_pages (firstSoup fetch) = 1) := by
  refine ⟨one_le_get_num_pages _, iter_records_length_le fetch m, ?_, ?_⟩
  · intro s hfs
    constructor
    · intro t hfind
      rw [hfs]
      show num_pages_scan s.spans = _
      rw [num_pages_scan_eq_find, hfind]
      rfl
    · intro hfind
      rw [hfs]
      show num_pages_scan s.spans = _
      rw [num_pages_scan_eq_find, hfind]
  · intro h
    rw [h]
    rfl

/-- Witness for C5: a first page carrying the marker `"  342 Cars  "`
derives `num_pages = max 1 (ceil(342 / 100)) = 4`. -/
theorem C5_pagination_terminates_bounded_witness :
    firstSoup (fun _ => FetchResult.response ⟨200, .ok markerSoup⟩) =
      some markerSoup ∧
    markerSoup.spans.find?
      (fun t0 => pyEndsWith (pyLower (pyStrip t0)) " cars") =
        some "  342 Cars  " ∧
    get_num_pages (firstSoup (fun _ => FetchResult.response ⟨200, .ok markerSoup⟩)) =
      max 1 (pyCeilDiv (parse_number (some (pyLower (pyStrip "  342 Cars  ")))) 100) ∧
    get_num_pages (firstSoup (fun _ => FetchResult.response ⟨200, .ok markerSoup⟩)) =
      4 := by
  refine ⟨rfl, by decide, ?_, by decide⟩
  exact ((C5_pagination_terminates_bounded
      (fun _ => FetchResult.response ⟨200, .ok markerSoup⟩) camryRef).2.2.1
    markerSoup rfl).1 "  342 Cars  " (by decide)

/-- C6: every yielded progress value equals `page / num_pages` and lies
in `(0, 1]`, successive values are non-decreasing, and on a successful
full traversal (every page in range yields a document) the iteration
yields exactly `num_pages` tuples, the last with progress `1`. -/
theorem C6_progress_fractions_monotone (fetch : Nat → FetchResult)
    (m : ModelRef) :
    (∀ (i : Nat) (pr : PageYield), (iter_records fetch m).1[i]? = some pr →
      pr.2 = progress_frac (i + 1) (get_num_pages (firstSoup fetch)) ∧
      0 < pr.2 ∧ pr.2 ≤ 1) ∧
    (∀ (i j : Nat) (pri prj : PageYield), i ≤ j →
      (iter_records fetch m).1[i]? = some pri →
      (iter_records fetch m).1[j]? = some prj →
      pri.2 ≤ prj.2) ∧
    ((∀ p, 1 ≤ p → p ≤ get_num_pages (firstSoup fetch) →
        ∃ s : Soup, get_page_soup (fetch p) = .ok (some s)) →
      (iter_records fetch m).1.length = get_num_pages (firstSoup fetch) ∧
      ((iter_records fetch m).1[get_num_pages (firstSoup fetch) - 1]?).map
        Prod.snd = some 1) := by
  have hnp1 : 1 ≤ get_num_pages (firstSoup fetch) := one_le_get_num_pages _
  have hnpq : (0 : ℚ) < (get_num_pages (firstSoup fetch) : ℚ) := by
    exact_mod_cast Nat.lt_of_lt_of_le Nat.zero_lt_one hnp1
  refine ⟨?_, ?_, ?_⟩
  · intro i pr h
    have heq := iter_records_get_snd fetch m i pr h
    have hlt : i < (iter_records fetch m).1.length := by
      by_contra hc
      rw [List.getElem?_eq_none (by omega)] at h
      exact Option.noConfusion h
    have hle := iter_records_length_le fetch m
    refine ⟨heq, ?_, ?_⟩
    · rw [heq]
      unfold progress_frac
      apply div_pos _ hnpq
      exact_mod_cast Nat.succ_pos i
    · rw [heq]
      unfold progress_frac
      rw [div_le_one hnpq]
      exact_mod_cast by omega
  · intro i j pri prj hij hi hj
    have heqi := iter_records_get_snd fetch m i pri hi
    have heqj := iter_records_get_snd fetch m j prj hj
    rw [heqi, heqj]
    unfold progress_frac
    gcongr
  · intro hall
    have hlen := iter_records_length_full fetch m hall
    refine ⟨hlen, ?_⟩
    have hlt : get_num_pages (firstSoup fetch) - 1 <
        (iter_records fetch m).1.length := by omega
    rw [List.getElem?_eq_getElem hlt]
    have heq := iter_records_get_snd fetch m
      (get_num_pages (firstSoup fetch) - 1)
      ((iter_records fetch m).1.get ⟨_, hlt⟩)
      (by rw [List.getElem?_eq_getElem hlt]; rfl)
    simp only [Option.map_some']
    rw [show (iter_records fetch m).1[get_num_pages (firstSoup fetch) - 1] =
      (iter_records fetch m).1.get ⟨_, hlt⟩ from rfl]
    rw [heq]
    unfold progress_frac
    rw [show get_num_pages (firstSoup fetch) - 1 + 1 =
      get_num_pages (firstSoup fetch) from by omega]
    exact congrArg some (div_self (ne_of_gt hnpq))

/-- Witness for C6: a single 200-status page with no marker yields one
tuple with progress `1 / 1 = 1`. -/
theorem C6_progress_fractions_monotone_witness :
    (∀ p, 1 ≤ p →
      p ≤ get_num_pages (firstSoup (fun _ => FetchResult.response ⟨200, .ok ⟨[], []⟩⟩)) →
      ∃ s : Soup,
        get_page_soup ((fun _ => FetchResult.response ⟨200, .ok ⟨[], []⟩⟩) p) =
          .ok (some s)) ∧
    (iter_records (fun _ => FetchResult.response ⟨200, .ok ⟨[], []⟩⟩) camryRef).1.length =
      get_num_pages (firstSoup (fun _ => FetchResult.response ⟨200, .ok ⟨[], []⟩⟩)) ∧
    ((iter_records (fun _ => FetchResult.response ⟨200, .ok ⟨[], []⟩⟩) camryRef).1[
      get_num_pages (firstSoup (fun _ => FetchResult.response ⟨200, .ok ⟨[], []⟩⟩)) - 1]?).map
        Prod.snd = some 1 := by
  have hall : ∀ p : Nat, 1 ≤ p →
      p ≤ get_num_pages (firstSoup (fun _ => FetchResult.response ⟨200, .ok ⟨[], []⟩⟩)) →
      ∃ s : Soup,
        get_page_soup ((fun _ => FetchResult.response ⟨200, .ok ⟨[], []⟩⟩) p) =
          .ok (some s) := by
    intro p _ _
    exact ⟨⟨[], []⟩, rfl⟩
  exact ⟨hall,
    (C6_progress_fractions_monotone
      (fun _ => FetchResult.response ⟨200, .ok ⟨[], []⟩⟩) camryRef).2.2 hall⟩

/-- C1 counterexample: three failed-fetch shapes each propagate an
exception out of `populate` on the very first page.  A network/timeout
failure raised as `urllib2.URLError` or a socket error is not caught
(`except` names only `HTTPError`); a returned response with a non-200
status that `urllib2` does not raise as `HTTPError` (e.g. a 206) hits
the explicit `raise RuntimeError`; and a status-200 response whose
`response.read()` raises propagates out of `get_page_soup`.  The claim
that a failed fetch never propagates to the caller as an exception is
false on each of them. -/
theorem C1_counterexample_fetch_failures_raise :
    populate (fun _ _ => FetchResult.netError) [camryRef] = .error () ∧
    populate (fun _ _ => FetchResult.response ⟨206, .ok ⟨[], []⟩⟩) [camryRef] =
      .error () ∧
    populate (fun _ _ => FetchResult.response ⟨200, .error ()⟩) [camryRef] =
      .error () :=
  ⟨rfl, rfl, rfl⟩

/-- C1 (amended): only a fetch failure raised as `urllib2.HTTPError` is
caught: `get_page_response` turns it into `None`, the page iteration
terminates early with whatever was parsed, and `populate` returns a
sorted (possibly empty) record sequence.  An empty or unparsable body is
likewise recoverable, since it still parses to an (empty) document.
Every other failure shape propagates out of `populate` as an exception:
a network/timeout failure raised as `URLError` or a socket error (the
`except` clause names only `HTTPError`), a returned response with a
non-200 status (the explicit `RuntimeError`), and a raised
`response.read()`.  The guarantee of the claim therefore holds exactly
when every fetch outcome is a caught `HTTPError` or a status-200
response whose body read succeeds (`fetch_ok`). -/
theorem C1_fetch_failures_recoverable (fetch : Nat → Nat → FetchResult)
    (models : List ModelRef) (h : ∀ i p, fetch_ok (fetch i p)) :
    ∃ l, populate fetch models = .ok l ∧ List.Sorted recordOrder l := by
  obtain ⟨l0, hl⟩ := populate_loop_ok fetch h models 0 []
  refine ⟨List.insertionSort recordOrder l0, ?_, ?_⟩
  · simp [populate, hl]
  · exact List.sorted_insertionSort recordOrder l0

/-- Witness for C1 at a fetch that always raises a caught `HTTPError`:
`populate` still returns (an empty, trivially sorted sequence). -/
theorem C1_fetch_failures_recoverable_witness :
    (∀ i p : Nat, fetch_ok ((fun _ _ => FetchResult.httpError) i p)) ∧
    ∃ l, populate (fun _ _ => FetchResult.httpError) [camryRef] = .ok l ∧
      List.Sorted recordOrder l := by
  have hstat : ∀ i p : Nat, fetch_ok ((fun _ _ => FetchResult.httpError) i p) := by
    intro i p
    exact trivial
  exact ⟨hstat,
    C1_fetch_failures_recoverable (fun _ _ => FetchResult.httpError) [camryRef]
      hstat⟩

/-- C4: saving a catalog and loading it back yields a catalog with the
same make `(token, label)` pairs, the same model `(token, label)` pairs
(flattened across makes, as `AutoSet.models` builds them), and the same
make-to-model associations (each model nested under the same make). -/
theorem C4_catalog_roundtrip (c : AutoSet) :
    ∃ c2 : AutoSet, AutoSet.load (AutoSet.save c) = .ok c2 ∧
      c2.makes.map (fun k => (k.token, k.label)) =
        c.makes.map (fun k => (k.token, k.label)) ∧
      c2.models.map (fun m => (m.token, m.label)) =
        c.models.map (fun m => (m.token, m.label)) ∧
      c2.makes.map (fun k =>
          (k.token, k.models.map (fun m => (m.token, m.label)))) =
        c.makes.map (fun k =>
          (k.token, k.models.map (fun m => (m.token, m.label)))) :=
  ⟨c, AutoSet.load_save c, rfl, rfl, rfl⟩

/-- C7 counterexample: `AutoSet.load` deserializes tokens verbatim, so a
cache payload carrying an upper-case token and the `"all"` sentinel
loads into a catalog violating the token invariant. -/
theorem C7_counterexample_load_is_verbatim :
    ∃ c : AutoSet, AutoSet.load badPayload = .ok c ∧ ¬ tokenInvariant c := by
  refine ⟨⟨[⟨"ALL", "Any", []⟩, ⟨"all", "all", []⟩]⟩, by decide, ?_⟩
  intro h
  have h2 := h ⟨"all", "all", []⟩ (by simp)
  exact h2.2.1 rfl

/-- C7 (amended): every catalog produced by `refresh` satisfies the
token invariant (tokens are lower-cased and `"all"` entries skipped in
`from_soup`); `load` itself performs no normalization or filtering, but
it reproduces the saved catalog exactly, so loading the cache saved from
an invariant-satisfying catalog (in particular a refreshed one) yields a
catalog that still satisfies the invariant. -/
theorem C7_token_normalization_refresh_and_saved_load :
    (∀ (makeDD : Option (List OptionTag))
       (modelDDFor : String → Option (List OptionTag)),
      tokenInvariant (AutoSet.refresh makeDD modelDDFor)) ∧
    (∀ c c2 : AutoSet, tokenInvariant c →
      AutoSet.load (AutoSet.save c) = .ok c2 → tokenInvariant c2) := by
  constructor
  · intro makeDD modelDDFor mk hmk
    simp only [AutoSet.refresh, AutoMake.from_soup, List.map_map,
      List.mem_map, Function.comp_def] at hmk
    obtain ⟨e, he, rfl⟩ := hmk
    obtain ⟨hlow, hall⟩ := from_soup_token_inv makeDD e he
    refine ⟨hlow, hall, ?_⟩
    intro m hm
    simp only [AutoModel.from_soup, List.mem_map] at hm
    obtain ⟨e2, he2, rfl⟩ := hm
    exact from_soup_token_inv _ e2 he2
  · intro c c2 hc hload
    rw [AutoSet.load_save] at hload
    cases hload
    exact hc

/-- Witness for C7 at the scenario catalog: it satisfies the invariant,
its save/load round trip succeeds, and the loaded catalog satisfies the
invariant by the theorem. -/
theorem C7_token_normalization_witness :
    tokenInvariant scenarioCatalog ∧
    AutoSet.load (AutoSet.save scenarioCatalog) = .ok scenarioCatalog ∧
    tokenInvariant scenarioCatalog := by
  have hinv : tokenInvariant scenarioCatalog := by
    intro mk hmk
    simp only [scenarioCatalog, List.mem_singleton] at hmk
    subst hmk
    refine ⟨by decide, by decide, ?_⟩
    intro m hm
    simp only [toyotaMake, List.mem_singleton] at hm
    subst hm
    exact ⟨by decide, by decide⟩
  have hload : AutoSet.load (AutoSet.save scenarioCatalog) =
      .ok scenarioCatalog := AutoSet.load_save scenarioCatalog
  exact ⟨hinv, hload,
    C7_token_normalization_refresh_and_saved_load.2 scenarioCatalog
      scenarioCatalog hinv hload⟩

/-- C8: `matches(value)` is the exact three-way alternation on token,
label and unique id, for makes and for models; on the scenario catalog
(make toyota/Toyota owning model camry/Camry), `AutoSet.get` resolves
`("toyota", "camry")` to the Camry model and `("TOYOTA", "civic")` to
`None` (matching is case-sensitive). -/
theorem C8_matches_alternation_and_resolution :
    (∀ (mk : AutoMake) (v : String),
      mk.matches v = true ↔ (v = mk.token ∨ v = mk.label ∨ v = mk.uuid)) ∧
    (∀ (mt : String) (m : AutoModel) (v : String),
      AutoModel.matches mt m v = true ↔
        (v = m.token ∨ v = m.label ∨ v = m.uuid mt)) ∧
    scenarioCatalog.get "toyota" "camry" = some camryModel ∧
    scenarioCatalog.get "TOYOTA" "civic" = none := by
  refine ⟨?_, ?_, ?_, ?_⟩
  · intro mk v
    simp [AutoMake.matches, or_assoc]
  · intro mt m v
    simp [AutoModel.matches, or_assoc]
  · decide
  · decide

/-- C9: the quality score of a record whose numeric fields hold the
integers `p` (price), `m` (mileage) and `y` (year) is
`round(p / 500 - m / 10000 - age / 2)` with `age = currentYear - y`
(Python 2 `round`: halfway away from zero); the scenario record with
price 15000, mileage 40000, year 2015 has age 9 and quality 22 at
current year 2024. -/
theorem C9_quality_score (cy p m y : Int) (r : AutoRecord)
    (hp : lookupField r.fields "price" = some (.int p))
    (hm : lookupField r.fields "mileage" = some (.int m))
    (hy : lookupField r.fields "year" = some (.int y)) :
    r.quality cy =
      .ok (roundHalfAway
        ((p : ℚ) / 500 - (m : ℚ) / 10000 - (((cy - y : Int)) : ℚ) / 2)) ∧
    r.age cy = .ok (cy - y) ∧
    scenarioRecord.age 2024 = .ok 9 ∧
    scenarioRecord.quality 2024 = .ok 22 := by
  have sy : lookupField scenarioRecord.fields "year" = some (.int 2015) := by
    decide
  have sp : lookupField scenarioRecord.fields "price" = some (.int 15000) := by
    decide
  have sm : lookupField scenarioRecord.fields "mileage" = some (.int 40000) := by
    decide
  refine ⟨?_, ?_, ?_, ?_⟩
  · simp [AutoRecord.quality, hp, hm, hy, AutoRecord.quality_formula,
      AutoRecord.age_formula]
  · simp [AutoRecord.age, hy, AutoRecord.age_formula]
  · simp [AutoRecord.age, sy, AutoRecord.age_formula]
  · simp [AutoRecord.quality, sp, sm, sy, AutoRecord.quality_formula,
      AutoRecord.age_formula]
    norm_num [roundHalfAway]

/-- Witness for C9 at the scenario record. -/
theorem C9_quality_score_witness :
    lookupField scenarioRecord.fields "price" = some (.int 15000) ∧
    lookupField scenarioRecord.fields "mileage" = some (.int 40000) ∧
    lookupField scenarioRecord.fields "year" = some (.int 2015) ∧
    scenarioRecord.quality 2024 =
      .ok (roundHalfAway ((15000 : ℚ) / 500 - (40000 : ℚ) / 10000 -
        (((2024 - 2015 : Int)) : ℚ) / 2)) :=
  ⟨by decide, by decide, by decide,
    (C9_quality_score 2024 15000 40000 2015 scenarioRecord
      (by decide) (by decide) (by decide)).1⟩

/-- C10: `get_stats` raises `ZeroDivisionError` exactly on an empty value
list (the zeroed dictionary is built but never returned), and returns the
stats dictionary whenever at least one value is present. -/
theorem C10_get_stats_empty_divides_by_zero (values : List Int) :
    (get_stats values = .error () ↔ values = []) ∧
    (values ≠ [] →
      ∃ s : Stats, get_stats values = .ok s ∧ s.count = values.length) := by
  cases values with
  | nil =>
    refine ⟨by simp [get_stats], by simp⟩
  | cons v vs =>
    constructor
    · simp [get_stats]
    · intro _
      exact ⟨_, rfl, rfl⟩

/-- Witness for C10 at a three-element value list. -/
theorem C10_get_stats_empty_divides_by_zero_witness :
    ([3, 5, 10] : List Int) ≠ [] ∧
    ∃ s : Stats, get_stats [3, 5, 10] = .ok s ∧ s.count = 3 :=
  ⟨by decide,
   (C10_get_stats_empty_divides_by_zero [3, 5, 10]).2 (by decide)⟩

/-- C2 (code evaluation): `num_records` returns 0 for a hidden node and
for any node without children, and the child sum otherwise; since
`AutoRow.populate` always leaves `children` empty and `AutoRow` does not
override `num_records`, every leaf — visible or hidden — contributes 0,
not 1. -/
theorem C2_num_records_leaf_contributes_zero :
    (∀ t : TreeRow, TreeRow.num_records t =
      if t.hiddenFlag || t.childList.isEmpty then 0
      else sum_num_records t.childList) ∧
    (∀ (h : Bool) (r : AutoRecord), TreeRow.num_records (.leaf h r) = 0) ∧
    (∀ r : AutoRecord, TreeRow.num_records (.leaf false r) ≠ 1) := by
  refine ⟨?_, ?_, ?_⟩
  · intro t
    cases t with
    | leaf h r =>
      simp [TreeRow.num_records, TreeRow.hiddenFlag, TreeRow.childList]
    | group h cs =>
      simp [TreeRow.num_records, TreeRow.hiddenFlag, TreeRow.childList]
  · intro h r
    rfl
  · intro r
    simp [TreeRow.num_records]

/-- C3 (code evaluation): on a listing fragment where every extraction
rule misses, the parsed record keeps `sale_type`, `style` and `price` at
their defaults, but `title` is stored as `None` (not the default
`"Unknown"`), `listing_id` is stored as the string `"None"` (not the
numeric default 0), reading `dealer` raises `KeyError` (the `DEFAULTS`
entry is keyed `dealer`, the property reads `dealer-name`), and reading
the derived `sale_type` raises `AttributeError` (`None.lower()`). -/
theorem C3_parse_miss_field_reads :
    (parse_record "Toyota" "Camry" bareListing).dealer = .error () ∧
    (parse_record "Toyota" "Camry" bareListing).sale_type = .error () ∧
    lookupField (parse_record "Toyota" "Camry" bareListing).fields "title" =
      some PyVal.null ∧
    lookupField (parse_record "Toyota" "Camry" bareListing).fields "listing_id" =
      some (.str "None") ∧
    lookupField (parse_record "Toyota" "Camry" bareListing).fields "sale_type" =
      some (.str "Unknown") ∧
    lookupField (parse_record "Toyota" "Camry" bareListing).fields "style" =
      some (.str "Unknown") ∧
    lookupField (parse_record "Toyota" "Camry" bareListing).fields "price" =
      some (.int 0) := by
  decide

end CarQuery
